import Mathlib

/-!
Shallow embedding of the GMLAN utility protocol engine
(`scapy/contrib/automotive/gm/gmlanutil.py`).

The socket is modelled as a stream of incoming events: each `sr1` call and
each `sniff(count=1)` call consumes one element of a `List (Option GMLANResp)`;
`none` models a timeout (no packet within the window).  Operations return
their success value together with the observable interaction (number of
messages sent, or the list of requests sent where a claim needs their
contents).  The retry counter is an `Int` at the interface (as in Python) and
is normalised to its absolute value on entry, exactly as the source does.
-/

/-- A diagnostic response, carrying every field the source reads.  In scapy
these live on different packet layers; the embedding flattens them into one
record (fields unused by a given response are irrelevant to control flow). -/
structure GMLANResp where
  service : Nat
  returnCode : Nat
  requestServiceId : Nat
  securitySeed : Nat
  dataRecord : List Nat
  deriving DecidableEq, Repr

/-- A TransferData request as sent on the wire: the fields of
`GMLAN_TD(startingAddress=..., dataRecord=...)` that the claims observe. -/
structure SentTD where
  startingAddress : Int
  dataRecord : List Nat
  deriving DecidableEq, Repr

/-- Messages sent by `GetSecurityAccess`: the seed request
(`GMLAN_SA(subfunction=level)`) and the key submission
(`GMLAN_SA(subfunction=level+1, securityKey=...)`). -/
inductive SAMsg where
  | seedReq (subfunction : Int)
  | keyMsg (subfunction : Int) (securityKey : Nat)
  deriving DecidableEq, Repr

/-- Pop the next socket event; an exhausted stream behaves as a timeout,
matching `sr1`/`sniff` returning `None`/an empty list. -/
def pop (evs : List (Option GMLANResp)) :
    Option GMLANResp × List (Option GMLANResp) :=
  match evs with
  | [] => (none, [])
  | e :: rest => (e, rest)

/-- A response is a "response pending" interim answer correlated to service
`sid`: `service == 0x7f and returnCode == 0x78 and requestServiceId == sid`. -/
abbrev isPending (sid : Nat) (r : GMLANResp) : Prop :=
  r.service = 0x7f ∧ r.returnCode = 0x78 ∧ r.requestServiceId = sid

/-- The `# filter Response Pending` inner loop shared by `RequestDownload`,
`TransferData` and `ReadMemoryByAddress`: while the current response is a
pending response for `sid`, sniff one further correlated message (consuming
one event); an empty sniff yields `None`.  Returns the terminal response and
the remaining events. -/
def resolvePending (sid : Nat) :
    Option GMLANResp → List (Option GMLANResp) →
    Option GMLANResp × List (Option GMLANResp)
  | none, evs => (none, evs)
  | some r, evs =>
    if r.service = 0x7f ∧ r.returnCode = 0x78 ∧ r.requestServiceId = sid then
      match evs with
      | [] => (none, [])
      | e :: rest => resolvePending sid e rest
    else (some r, evs)

/-- One attempt of the shared request/response cycle: send the request
(`sr1` pops one event), absorb pending responses, then accept the terminal
response iff its service code is `okService`.  Returns the accepted response
(or `none` on timeout / wrong service) and the remaining events. -/
def singleAttempt (pendSid okService : Nat)
    (evs : List (Option GMLANResp)) :
    Option GMLANResp × List (Option GMLANResp) :=
  let p := pop evs
  let res := resolvePending pendSid p.1 p.2
  match res.1 with
  | some r => if r.service = okService then (some r, res.2) else (none, res.2)
  | none => (none, res.2)

/-- The bounded retry loop of `RequestDownload` / each `TransferData` chunk /
`ReadMemoryByAddress`: attempt; on success stop; on failure decrement the
retry counter and repeat while it is still non-negative (`retry -= 1;
if retry >= 0: continue else ...`), so a budget of `n` yields at most `n + 1`
attempts.  Returns the accepted response (if any), the number of requests
sent, and the remaining events. -/
def attemptLoop (pendSid okService : Nat) :
    List (Option GMLANResp) → Nat →
    Option GMLANResp × Nat × List (Option GMLANResp)
  | evs, 0 =>
    match singleAttempt pendSid okService evs with
    | (some r, evs') => (some r, 1, evs')
    | (none, evs') => (none, 1, evs')
  | evs, n + 1 =>
    match singleAttempt pendSid okService evs with
    | (some r, evs') => (some r, 1, evs')
    | (none, evs') =>
      let r2 := attemptLoop pendSid okService evs' n
      (r2.1, r2.2.1 + 1, r2.2.2)

/-- `RequestDownload(socket, length, timeout, verbose, retry)`: one bounded
loop around a `GMLAN_RD` exchange; pending responses echo service `0x34`,
success requires service `0x74`.  Returns success and the number of requests
sent.  The `length` parameter only populates the request packet. -/
def RequestDownload (length : Int) (evs : List (Option GMLANResp))
    (retry : Int) : Bool × Nat :=
  let res := attemptLoop 0x34 0x74 evs retry.natAbs
  (res.1.isSome, res.2.1)

/-- `ReadMemoryByAddress(socket, addr, length, ...)`: validates `addr`
against the addressing scheme and `length` against `4094 - scheme`; on
success of the bounded loop (pending sid `0x23`, positive service `0x63`)
returns the response's `dataRecord`.  Second component: requests sent. -/
def ReadMemoryByAddress (scheme : Nat) (addr length : Int)
    (evs : List (Option GMLANResp)) (retry : Int) :
    Option (List Nat) × Nat :=
  let r := retry.natAbs
  if addr < 0 ∨ addr ≥ 2 ^ (8 * scheme) then (none, 0)
  else if length ≤ 0 ∨ length > 4094 - (scheme : Int) then (none, 0)
  else
    let res := attemptLoop 0x23 0x63 evs r
    (res.1.map (fun x => x.dataRecord), res.2.1)

/-- The chunk `payload[i:i+maxmsglen]` (resp. `payload[i:]`) sent at offset
`i`, exactly as computed by the source's slicing. -/
def tdChunk (payload : List Nat) (m i : Nat) : List Nat :=
  let rest := payload.drop i
  if rest.length > m then rest.take m else rest

/-- The offsets `range(0, len, m)` of the chunk loop (for `m ≥ 1` this is
`0, m, 2m, ...` below `len`; the count is `⌈len / m⌉`). -/
def chunkStarts (len m : Nat) : List Nat :=
  (List.range ((len + m - 1) / m)).map (fun k => k * m)

/-- The `GMLAN_TD` request sent for the chunk at offset `i`. -/
def tdPkt (addr : Int) (payload : List Nat) (m i : Nat) : SentTD :=
  ⟨addr + (i : Int), tdChunk payload m i⟩

/-- The chunk loop of `TransferData`: for each offset, run the bounded
attempt loop (pending sid `0x36`, positive service `0x76`) with a fresh
budget `startretry`; exhausting it aborts the whole upload.  Returns success,
the full list of sent `GMLAN_TD` requests, and the remaining events. -/
def transferDataLoop (addr : Int) (payload : List Nat) (m startretry : Nat) :
    List Nat → List (Option GMLANResp) →
    Bool × List SentTD × List (Option GMLANResp)
  | [], evs => (true, [], evs)
  | i :: is, evs =>
    let pkt := tdPkt addr payload m i
    let res := attemptLoop 0x36 0x76 evs startretry
    match res.1 with
    | some _ =>
      let r2 := transferDataLoop addr payload m startretry is res.2.2
      (r2.1, List.replicate res.2.1 pkt ++ r2.2.1, r2.2.2)
    | none => (false, List.replicate res.2.1 pkt, res.2.2)

/-- The effective chunk size of `TransferData`: `maxmsglen` unless it is
unset, non-positive or above the protocol ceiling `4093 - scheme`, in which
case it is clamped to that ceiling. -/
def effectiveChunkSize (scheme : Nat) (maxmsglen : Option Int) : Int :=
  match maxmsglen with
  | none => 4093 - (scheme : Int)
  | some v =>
    if v ≤ 0 ∨ v > 4093 - (scheme : Int) then 4093 - (scheme : Int) else v

/-- `TransferData(socket, addr, payload, maxmsglen, ...)`: normalise the
retry budget, validate `addr` against the addressing scheme, clamp the chunk
size, then run the chunk loop.  Returns success and the sent requests. -/
def TransferData (scheme : Nat) (addr : Int) (payload : List Nat)
    (maxmsglen : Option Int) (evs : List (Option GMLANResp))
    (retry : Int) : Bool × List SentTD :=
  let startretry := retry.natAbs
  if addr < 0 ∨ addr ≥ 2 ^ (8 * scheme) then (false, [])
  else
    let m := (effectiveChunkSize scheme maxmsglen).toNat
    let r := transferDataLoop addr payload m startretry
      (chunkStarts payload.length m) evs
    (r.1, r.2.1)

/-- One attempt of `GetSecurityAccess`: request a seed (one event); on a
valid `0x67` response with seed `0` succeed immediately; on a non-zero seed
send the key (one more event) and interpret the reply (`0x67` positive,
`0x7f`/`0x35` invalid key, anything else likewise retryable).  `some true`
means success, `none` a retryable failure; also returns the messages sent in
this attempt and the remaining events. -/
def gsaAttempt (level : Int) (keyFn : Nat → Nat)
    (evs : List (Option GMLANResp)) :
    Option Bool × List SAMsg × List (Option GMLANResp) :=
  let p1 := pop evs
  match p1.1 with
  | none => (none, [SAMsg.seedReq level], p1.2)
  | some resp =>
    if resp.service ≠ 0x67 then (none, [SAMsg.seedReq level], p1.2)
    else if resp.securitySeed = 0 then (some true, [SAMsg.seedReq level], p1.2)
    else
      let msgs := [SAMsg.seedReq level,
                   SAMsg.keyMsg (level + 1) (keyFn resp.securitySeed)]
      let p2 := pop p1.2
      match p2.1 with
      | none => (none, msgs, p2.2)
      | some resp2 =>
        if resp2.service = 0x67 then (some true, msgs, p2.2)
        else if resp2.service = 0x7f ∧ resp2.returnCode = 0x35 then
          (none, msgs, p2.2)
        else (none, msgs, p2.2)

/-- The retry loop of `GetSecurityAccess` (`while retry >= 0: retry -= 1;
...`): a budget of `n` yields at most `n + 1` attempts; each failed attempt's
messages are accumulated in order. -/
def gsaLoop (level : Int) (keyFn : Nat → Nat) :
    List (Option GMLANResp) → Nat →
    Bool × List SAMsg × List (Option GMLANResp)
  | evs, 0 =>
    match gsaAttempt level keyFn evs with
    | (some b, msgs, evs') => (b, msgs, evs')
    | (none, msgs, evs') => (false, msgs, evs')
  | evs, n + 1 =>
    match gsaAttempt level keyFn evs with
    | (some b, msgs, evs') => (b, msgs, evs')
    | (none, msgs, evs') =>
      let r := gsaLoop level keyFn evs' n
      (r.1, msgs ++ r.2.1, r.2.2)

/-- `GetSecurityAccess(socket, keyFunction, level, ...)`: normalise the
retry budget, reject even levels before any transport activity, then run the
seed/key loop.  Returns success and the list of messages sent. -/
def GetSecurityAccess (level : Int) (keyFn : Nat → Nat)
    (evs : List (Option GMLANResp)) (retry : Int) : Bool × List SAMsg :=
  if level % 2 = 0 then (false, [])
  else
    let r := gsaLoop level keyFn evs retry.natAbs
    (r.1, r.2.1)

/-- One attempt of `InitDiagnostics`: DisableNormalCommunication (broadcast
fire-and-forget, or unicast expecting service `0x68`), ReportProgrammedState
(expecting `0xe2`), ProgrammingMode requestProgramming (expecting `0xe5`),
then the fire-and-forget enableProgramming.  Each unicast exchange consumes
one event; any failure aborts the attempt. -/
def initAttempt (broadcast : Bool) (evs : List (Option GMLANResp)) :
    Bool × List (Option GMLANResp) :=
  let s1 :=
    if broadcast then (true, evs)
    else
      match pop evs with
      | (none, e) => (false, e)
      | (some r, e) => (r.service = 0x68, e)
  if s1.1 = false then (false, s1.2)
  else
    match pop s1.2 with
    | (none, e) => (false, e)
    | (some r, e) =>
      if r.service ≠ 0xe2 then (false, e)
      else
        match pop e with
        | (none, e2) => (false, e2)
        | (some r2, e2) =>
          if r2.service ≠ 0xe5 then (false, e2) else (true, e2)

/-- The retry loop of `InitDiagnostics` (`while retry >= 0: retry -= 1;
...`): a budget of `n` yields at most `n + 1` attempts.  Second component:
the number of attempt cycles performed. -/
def initDiagnosticsLoop (broadcast : Bool) :
    List (Option GMLANResp) → Nat →
    Bool × Nat × List (Option GMLANResp)
  | evs, 0 =>
    match initAttempt broadcast evs with
    | (ok, evs') => (ok, 1, evs')
  | evs, n + 1 =>
    match initAttempt broadcast evs with
    | (true, evs') => (true, 1, evs')
    | (false, evs') =>
      let r := initDiagnosticsLoop broadcast evs' n
      (r.1, r.2.1 + 1, r.2.2)

/-- `InitDiagnostics(socket, broadcastsocket, ...)`: normalise the retry
budget and run the four-step handshake loop.  Returns success and the number
of attempt cycles performed. -/
def InitDiagnostics (broadcast : Bool) (evs : List (Option GMLANResp))
    (retry : Int) : Bool × Nat :=
  let r := initDiagnosticsLoop broadcast evs retry.natAbs
  (r.1, r.2.1)

/-- `TransferPayload`: `RequestDownload` with the payload length, then
`TransferData`; a failed download declaration skips the data phase.  The
event stream is split: `rdEvs` feed the download exchange, `tdEvs` the data
chunks. -/
def TransferPayload (scheme : Nat) (addr : Int) (payload : List Nat)
    (maxmsglen : Option Int) (rdEvs tdEvs : List (Option GMLANResp))
    (retry : Int) : Bool :=
  if (RequestDownload (payload.length : Int) rdEvs retry).1 = false then false
  else (TransferData scheme addr payload maxmsglen tdEvs retry).1

/-! ## Helper lemmas: the response-pending sub-protocol -/

/-- Absorbing one pending response is a no-op apart from consuming the next
sniffed event. -/
theorem resolvePending_step (sid : Nat) (p : GMLANResp) (hp : isPending sid p)
    (t : Option GMLANResp) (evs : List (Option GMLANResp)) :
    resolvePending sid (some p) (t :: evs) = resolvePending sid t evs := by
  simp only [resolvePending]
  rw [if_pos ⟨hp.1, hp.2.1, hp.2.2⟩]

/-- A whole chain of pending responses resolves to the resolution of the
first non-pending event behind it. -/
theorem resolvePending_chain (sid : Nat) :
    ∀ ps : List GMLANResp, (∀ p ∈ ps, isPending sid p) →
      ∀ p : GMLANResp, isPending sid p →
        ∀ (t : Option GMLANResp) (evs : List (Option GMLANResp)),
          resolvePending sid (some p) (ps.map some ++ t :: evs)
            = resolvePending sid t evs := by
  intro ps
  induction ps with
  | nil =>
    intro _ p hp t evs
    simpa using resolvePending_step sid p hp t evs
  | cons q qs ih =>
    intro h p hp t evs
    have h1 : resolvePending sid (some p)
        ((q :: qs).map some ++ t :: evs)
        = resolvePending sid (some q) (qs.map some ++ t :: evs) := by
      simpa using resolvePending_step sid p hp (some q)
        (qs.map some ++ t :: evs)
    rw [h1]
    exact ih (fun x hx => h x (List.mem_cons_of_mem q hx)) q
      (h q (List.mem_cons_self q qs)) t evs

/-- A single attempt is unchanged by a prefix of correlated pending
responses: they are silently absorbed. -/
theorem singleAttempt_absorb (pendSid okService : Nat)
    (ps : List GMLANResp) (h : ∀ p ∈ ps, isPending pendSid p)
    (t : Option GMLANResp) (evs : List (Option GMLANResp)) :
    singleAttempt pendSid okService (ps.map some ++ t :: evs)
      = singleAttempt pendSid okService (t :: evs) := by
  cases ps with
  | nil => rfl
  | cons q qs =>
    unfold singleAttempt
    simp only [List.map_cons, List.cons_append, pop]
    rw [resolvePending_chain pendSid qs
      (fun x hx => h x (List.mem_cons_of_mem q hx)) q
      (h q (List.mem_cons_self q qs)) t evs]

/-- The bounded retry loop only looks at the event stream through
`singleAttempt`. -/
theorem attemptLoop_congr (pendSid okService : Nat)
    (evs1 evs2 : List (Option GMLANResp))
    (h : singleAttempt pendSid okService evs1
       = singleAttempt pendSid okService evs2) (n : Nat) :
    attemptLoop pendSid okService evs1 n
      = attemptLoop pendSid okService evs2 n := by
  cases n <;> simp only [attemptLoop] <;> rw [h]

/-- The chunk loop only looks at the event stream through `attemptLoop`. -/
theorem transferDataLoop_congr (addr : Int) (payload : List Nat)
    (m sr i : Nat) (is : List Nat)
    (evs1 evs2 : List (Option GMLANResp))
    (h : attemptLoop 0x36 0x76 evs1 sr = attemptLoop 0x36 0x76 evs2 sr) :
    transferDataLoop addr payload m sr (i :: is) evs1
      = transferDataLoop addr payload m sr (i :: is) evs2 := by
  simp only [transferDataLoop]
  rw [h]

/-- For a valid addressing width the clamped chunk size is at least one
byte. -/
theorem effectiveChunkSize_pos (scheme : Nat) (mm : Option Int)
    (h : scheme ≤ 4092) : 1 ≤ (effectiveChunkSize scheme mm).toNat := by
  have hs : (scheme : Int) ≤ 4092 := by exact_mod_cast h
  cases mm with
  | none => simp only [effectiveChunkSize]; omega
  | some v => simp only [effectiveChunkSize]; split_ifs <;> omega

/-- A non-empty payload yields at least one chunk offset. -/
theorem chunkStarts_ne_nil (len m : Nat) (hm : 1 ≤ m) (hlen : 1 ≤ len) :
    chunkStarts len m ≠ [] := by
  have h1 : 1 ≤ (len + m - 1) / m :=
    (Nat.one_le_div_iff (by omega)).mpr (by omega)
  simp only [chunkStarts, ne_eq, List.map_eq_nil_iff, List.range_eq_nil]
  omega

/-! ## Claim C1 -/

/-- Claim C1: for every request resolved through the response-pending
sub-protocol (`RequestDownload`, each `TransferData` chunk,
`ReadMemoryByAddress`), any number of consecutive negative responses with
the response-pending return code whose echoed service identifier matches the
just-sent request never decrements the retry counter: prefixing such a chain
in front of the terminal event leaves the whole operation's outcome,
message count and sent requests unchanged, so only a terminal timeout or a
terminal non-matching response can consume retry budget. -/
theorem c1_response_pending_never_consumes_retry :
    (∀ ps : List GMLANResp, (∀ p ∈ ps, isPending 0x34 p) →
      ∀ (t : Option GMLANResp) (evs : List (Option GMLANResp))
        (len retry : Int),
        RequestDownload len (ps.map some ++ t :: evs) retry
          = RequestDownload len (t :: evs) retry) ∧
    (∀ ps : List GMLANResp, (∀ p ∈ ps, isPending 0x23 p) →
      ∀ (t : Option GMLANResp) (evs : List (Option GMLANResp))
        (scheme : Nat) (addr length retry : Int),
        ReadMemoryByAddress scheme addr length (ps.map some ++ t :: evs) retry
          = ReadMemoryByAddress scheme addr length (t :: evs) retry) ∧
    (∀ ps : List GMLANResp, (∀ p ∈ ps, isPending 0x36 p) →
      ∀ (t : Option GMLANResp) (evs : List (Option GMLANResp))
        (scheme : Nat) (addr : Int) (payload : List Nat)
        (mm : Option Int) (retry : Int),
        scheme ≤ 4092 → payload ≠ [] → 0 ≤ addr →
        addr < 2 ^ (8 * scheme) →
        TransferData scheme addr payload mm (ps.map some ++ t :: evs) retry
          = TransferData scheme addr payload mm (t :: evs) retry) := by
  refine ⟨?_, ?_, ?_⟩
  · intro ps hps t evs len retry
    simp only [RequestDownload]
    rw [attemptLoop_congr 0x34 0x74 _ _
      (singleAttempt_absorb 0x34 0x74 ps hps t evs) retry.natAbs]
  · intro ps hps t evs scheme addr length retry
    simp only [ReadMemoryByAddress]
    rw [attemptLoop_congr 0x23 0x63 _ _
      (singleAttempt_absorb 0x23 0x63 ps hps t evs) retry.natAbs]
  · intro ps hps t evs scheme addr payload mm retry hscheme hpay ha0 ha1
    have hnot : ¬(addr < 0 ∨ addr ≥ 2 ^ (8 * scheme)) := by
      push_neg
      exact ⟨ha0, ha1⟩
    have hm := effectiveChunkSize_pos scheme mm hscheme
    have hlen : 1 ≤ payload.length := by
      cases payload with
      | nil => exact absurd rfl hpay
      | cons a l => simp
    have hne := chunkStarts_ne_nil payload.length
      (effectiveChunkSize scheme mm).toNat hm hlen
    simp only [TransferData, if_neg hnot]
    cases hcs : chunkStarts payload.length
        (effectiveChunkSize scheme mm).toNat with
    | nil => exact absurd hcs hne
    | cons i is =>
      rw [transferDataLoop_congr _ _ _ _ _ _ _ _
        (attemptLoop_congr 0x36 0x76 _ _
          (singleAttempt_absorb 0x36 0x76 ps hps t evs) retry.natAbs)]

/-- A pending interim response echoing service `sid`. -/
def pendResp (sid : Nat) : GMLANResp := ⟨0x7f, 0x78, sid, 0, []⟩

/-- A positive response with service code `svc`. -/
def okResp (svc : Nat) : GMLANResp := ⟨svc, 0, 0, 0, []⟩

/-- Witness for C1: one pending response in front of the terminal positive
response changes nothing for each of the three operations. -/
theorem c1_witness :
    RequestDownload 5 [some (pendResp 0x34), some (okResp 0x74)] 0
      = RequestDownload 5 [some (okResp 0x74)] 0 ∧
    ReadMemoryByAddress 1 0 1 [some (pendResp 0x23), some (okResp 0x63)] 0
      = ReadMemoryByAddress 1 0 1 [some (okResp 0x63)] 0 ∧
    TransferData 1 0 [1] none [some (pendResp 0x36), some (okResp 0x76)] 0
      = TransferData 1 0 [1] none [some (okResp 0x76)] 0 := by
  refine ⟨?_, ?_, ?_⟩
  · simpa using c1_response_pending_never_consumes_retry.1
      [pendResp 0x34] (by decide) (some (okResp 0x74)) [] 5 0
  · simpa using c1_response_pending_never_consumes_retry.2.1
      [pendResp 0x23] (by decide) (some (okResp 0x63)) [] 1 0 1 0
  · simpa using c1_response_pending_never_consumes_retry.2.2
      [pendResp 0x36] (by decide) (some (okResp 0x76)) [] 1 0 [1] none 0
      (by decide) (by decide) (by decide) (by decide)

/-! ## Claim C2: retry normalisation and attempt bounds -/

/-- The bounded loop performs at most `n + 1` attempts (one request each). -/
theorem attemptLoop_count (pendSid okService : Nat) :
    ∀ (n : Nat) (evs : List (Option GMLANResp)),
      (attemptLoop pendSid okService evs n).2.1 ≤ n + 1 := by
  intro n
  induction n with
  | zero =>
    intro evs
    rcases h : singleAttempt pendSid okService evs with ⟨o, evs'⟩
    cases o <;> simp [attemptLoop, h]
  | succ n ih =>
    intro evs
    rcases h : singleAttempt pendSid okService evs with ⟨o, evs'⟩
    cases o with
    | none =>
      simp only [attemptLoop, h]
      exact Nat.succ_le_succ (ih evs')
    | some r => simp [attemptLoop, h]

/-- The handshake loop performs at most `n + 1` attempt cycles. -/
theorem initDiagnosticsLoop_count (broadcast : Bool) :
    ∀ (n : Nat) (evs : List (Option GMLANResp)),
      (initDiagnosticsLoop broadcast evs n).2.1 ≤ n + 1 := by
  intro n
  induction n with
  | zero =>
    intro evs
    rcases h : initAttempt broadcast evs with ⟨ok, evs'⟩
    simp [initDiagnosticsLoop, h]
  | succ n ih =>
    intro evs
    rcases h : initAttempt broadcast evs with ⟨ok, evs'⟩
    cases ok with
    | false =>
      simp only [initDiagnosticsLoop, h]
      exact Nat.succ_le_succ (ih evs')
    | true => simp [initDiagnosticsLoop, h]

/-- One seed/key attempt sends a seed request, optionally followed by one
key message. -/
theorem gsaAttempt_msgs (level : Int) (kf : Nat → Nat)
    (evs : List (Option GMLANResp)) :
    (gsaAttempt level kf evs).2.1 = [SAMsg.seedReq level] ∨
      ∃ k, (gsaAttempt level kf evs).2.1
        = [SAMsg.seedReq level, SAMsg.keyMsg (level + 1) k] := by
  unfold gsaAttempt
  cases evs with
  | nil => left; rfl
  | cons e rest =>
    cases e with
    | none => left; rfl
    | some resp =>
      simp only [pop]
      split_ifs with h1 h2
      · left; rfl
      · left; rfl
      · cases rest with
        | nil => right; exact ⟨kf resp.securitySeed, rfl⟩
        | cons e2 rest2 =>
          cases e2 with
          | none => right; exact ⟨kf resp.securitySeed, rfl⟩
          | some resp2 =>
            simp only [pop]
            split_ifs <;> right <;> exact ⟨kf resp.securitySeed, rfl⟩

/-- One seed/key attempt sends at most two messages. -/
theorem gsaAttempt_len (level : Int) (kf : Nat → Nat)
    (evs : List (Option GMLANResp)) :
    (gsaAttempt level kf evs).2.1.length ≤ 2 := by
  rcases gsaAttempt_msgs level kf evs with h | ⟨k, h⟩ <;> simp [h]

/-- The seed/key retry loop sends at most `2 * (n + 1)` messages over its at
most `n + 1` attempts. -/
theorem gsaLoop_len (level : Int) (kf : Nat → Nat) :
    ∀ (n : Nat) (evs : List (Option GMLANResp)),
      (gsaLoop level kf evs n).2.1.length ≤ 2 * (n + 1) := by
  intro n
  induction n with
  | zero =>
    intro evs
    rcases h : gsaAttempt level kf evs with ⟨ob, msgs, evs'⟩
    have hlen : msgs.length ≤ 2 := by
      have h2 := gsaAttempt_len level kf evs
      rw [h] at h2
      exact h2
    cases ob <;> simp [gsaLoop, h] <;> omega
  | succ n ih =>
    intro evs
    rcases h : gsaAttempt level kf evs with ⟨ob, msgs, evs'⟩
    have hlen : msgs.length ≤ 2 := by
      have h2 := gsaAttempt_len level kf evs
      rw [h] at h2
      exact h2
    cases ob with
    | none =>
      have := ih evs'
      simp only [gsaLoop, h, List.length_append]
      omega
    | some b => simp only [gsaLoop, h]; omega

/-- Claim C2: every operation first normalises the caller-supplied retry
value to its absolute value, and each bounded retry loop performs at most
`|r| + 1` full attempt cycles before reporting failure (for
`GetSecurityAccess`, at most two messages per cycle). -/
theorem c2_retry_budget_normalised_and_bounded :
    (∀ (b : Bool) (evs : List (Option GMLANResp)) (r : Int),
      InitDiagnostics b evs r = InitDiagnostics b evs (r.natAbs : Int)) ∧
    (∀ (len : Int) (evs : List (Option GMLANResp)) (r : Int),
      RequestDownload len evs r = RequestDownload len evs (r.natAbs : Int)) ∧
    (∀ (level : Int) (kf : Nat → Nat) (evs : List (Option GMLANResp))
        (r : Int),
      GetSecurityAccess level kf evs r
        = GetSecurityAccess level kf evs (r.natAbs : Int)) ∧
    (∀ (scheme : Nat) (addr : Int) (payload : List Nat) (mm : Option Int)
        (evs : List (Option GMLANResp)) (r : Int),
      TransferData scheme addr payload mm evs r
        = TransferData scheme addr payload mm evs (r.natAbs : Int)) ∧
    (∀ (scheme : Nat) (addr len : Int) (evs : List (Option GMLANResp))
        (r : Int),
      ReadMemoryByAddress scheme addr len evs r
        = ReadMemoryByAddress scheme addr len evs (r.natAbs : Int)) ∧
    (∀ (b : Bool) (evs : List (Option GMLANResp)) (r : Int),
      (InitDiagnostics b evs r).2 ≤ r.natAbs + 1) ∧
    (∀ (len : Int) (evs : List (Option GMLANResp)) (r : Int),
      (RequestDownload len evs r).2 ≤ r.natAbs + 1) ∧
    (∀ (scheme : Nat) (addr len : Int) (evs : List (Option GMLANResp))
        (r : Int),
      (ReadMemoryByAddress scheme addr len evs r).2 ≤ r.natAbs + 1) ∧
    (∀ (pendSid okService : Nat) (evs : List (Option GMLANResp)) (n : Nat),
      (attemptLoop pendSid okService evs n).2.1 ≤ n + 1) ∧
    (∀ (level : Int) (kf : Nat → Nat) (evs : List (Option GMLANResp))
        (n : Nat),
      (gsaLoop level kf evs n).2.1.length ≤ 2 * (n + 1)) := by
  refine ⟨?_, ?_, ?_, ?_, ?_, ?_, ?_, ?_, ?_, ?_⟩
  · intro b evs r; simp [InitDiagnostics, Int.natAbs_abs]
  · intro len evs r; simp [RequestDownload, Int.natAbs_abs]
  · intro level kf evs r; simp [GetSecurityAccess, Int.natAbs_abs]
  · intro scheme addr payload mm evs r; simp [TransferData, Int.natAbs_abs]
  · intro scheme addr len evs r; simp [ReadMemoryByAddress, Int.natAbs_abs]
  · intro b evs r
    simp only [InitDiagnostics]
    exact initDiagnosticsLoop_count b r.natAbs evs
  · intro len evs r
    simp only [RequestDownload]
    exact attemptLoop_count 0x34 0x74 r.natAbs evs
  · intro scheme addr len evs r
    simp only [ReadMemoryByAddress]
    split_ifs
    · omega
    · omega
    · exact attemptLoop_count 0x23 0x63 r.natAbs evs
  · intro pendSid okService evs n; exact attemptLoop_count _ _ n evs
  · intro level kf evs n; exact gsaLoop_len level kf n evs

/-! ## Claim C3: chunk partitioning on the success path -/

/-- A response that is not a pending interim response resolves to itself. -/
theorem resolvePending_not_pending (sid : Nat) (r : GMLANResp)
    (h : r.service ≠ 0x7f) (evs : List (Option GMLANResp)) :
    resolvePending sid (some r) evs = (some r, evs) := by
  rw [resolvePending.eq_def]
  simp [h]

/-- A non-pending response with the expected service code succeeds on the
first try, consuming exactly one event and sending one request. -/
theorem attemptLoop_pos (pendSid okService : Nat) (r : GMLANResp)
    (hok : r.service = okService) (hnp : r.service ≠ 0x7f)
    (evs : List (Option GMLANResp)) (n : Nat) :
    attemptLoop pendSid okService (some r :: evs) n = (some r, 1, evs) := by
  have hres := resolvePending_not_pending pendSid r hnp evs
  have hs : singleAttempt pendSid okService (some r :: evs) = (some r, evs) := by
    simp [singleAttempt, pop, hres, hok]
  cases n <;> simp [attemptLoop, hs]

/-- When every chunk is answered positively at once, the chunk loop sends
exactly one request per offset, in order, and consumes the whole stream. -/
theorem transferDataLoop_all_ok (addr : Int) (payload : List Nat)
    (m sr : Nat) (r : GMLANResp) (hr : r.service = 0x76) :
    ∀ idxs : List Nat,
      transferDataLoop addr payload m sr idxs
          (List.replicate idxs.length (some r))
        = (true, idxs.map (tdPkt addr payload m), []) := by
  have hnp : r.service ≠ 0x7f := by rw [hr]; decide
  intro idxs
  induction idxs with
  | nil => simp [transferDataLoop]
  | cons i is ih =>
    simp only [List.length_cons, List.replicate_succ, transferDataLoop,
      attemptLoop_pos 0x36 0x76 r hr hnp _ sr, ih]
    simp [List.replicate]

/-- Claim C3: for every valid address and non-empty payload, `TransferData`
partitions the payload into sequential chunks of the effective chunk size,
sending the chunk at offset `i` with starting address `addr + i`; in
particular with addressing width 1 (effective chunk size 4092) a payload of
length 10000 is sent as exactly 3 chunks at offsets 0, 4092 and 8184. -/
theorem c3_transfer_data_chunking :
    (∀ (scheme : Nat) (addr : Int) (payload : List Nat) (mm : Option Int)
        (r : GMLANResp) (retry : Int),
      0 ≤ addr → addr < 2 ^ (8 * scheme) → payload ≠ [] →
      r.service = 0x76 →
      TransferData scheme addr payload mm
          (List.replicate
            (chunkStarts payload.length
              (effectiveChunkSize scheme mm).toNat).length (some r)) retry
        = (true,
           (chunkStarts payload.length
              (effectiveChunkSize scheme mm).toNat).map
             (tdPkt addr payload (effectiveChunkSize scheme mm).toNat))) ∧
    chunkStarts 10000 (effectiveChunkSize 1 none).toNat = [0, 4092, 8184] := by
  constructor
  · intro scheme addr payload mm r retry ha0 ha1 _hpay hr
    have hnot : ¬(addr < 0 ∨ addr ≥ 2 ^ (8 * scheme)) := by
      push_neg
      exact ⟨ha0, ha1⟩
    simp only [TransferData, if_neg hnot]
    rw [transferDataLoop_all_ok addr payload
      (effectiveChunkSize scheme mm).toNat retry.natAbs r hr]
  · decide

/-- Witness for C3: a 3-byte payload with chunk size 2 is sent as the two
chunks `[1, 2]` at address 0 and `[3]` at address 2. -/
theorem c3_witness :
    TransferData 1 0 [1, 2, 3] (some 2)
        (List.replicate
          (chunkStarts 3 (effectiveChunkSize 1 (some 2)).toNat).length
          (some (okResp 0x76))) 0
      = (true, [⟨0, [1, 2]⟩, ⟨2, [3]⟩]) := by
  have h := c3_transfer_data_chunking.1 1 0 [1, 2, 3] (some 2)
    (okResp 0x76) 0 (by decide) (by decide) (by decide) rfl
  simpa using h

/-! ## Claim C4: effective chunk size clamping -/

/-- A sent chunk never exceeds the effective chunk size. -/
theorem tdChunk_length (payload : List Nat) (m i : Nat) :
    (tdChunk payload m i).length ≤ m := by
  unfold tdChunk
  simp only []
  split_ifs with h
  · simp [List.length_take]
  · omega

/-- The effective chunk size never exceeds the protocol ceiling. -/
theorem effectiveChunkSize_le (scheme : Nat) (mm : Option Int) :
    effectiveChunkSize scheme mm ≤ 4093 - (scheme : Int) := by
  cases mm with
  | none => simp [effectiveChunkSize]
  | some v =>
    simp only [effectiveChunkSize]
    split_ifs with h <;> omega

/-- Every request in the chunk loop's trace is the chunk packet of one of
the offsets. -/
theorem transferDataLoop_mem (addr : Int) (payload : List Nat) (m sr : Nat) :
    ∀ (idxs : List Nat) (evs : List (Option GMLANResp)) (s : SentTD),
      s ∈ (transferDataLoop addr payload m sr idxs evs).2.1 →
      ∃ i ∈ idxs, s = tdPkt addr payload m i := by
  intro idxs
  induction idxs with
  | nil => intro evs s h; simp [transferDataLoop] at h
  | cons i is ih =>
    intro evs s h
    simp only [transferDataLoop] at h
    rcases hres : attemptLoop 0x36 0x76 evs sr with ⟨o, cnt, evs'⟩
    rw [hres] at h
    cases o with
    | some r =>
      simp only [List.mem_append] at h
      rcases h with h1 | h2
      · exact ⟨i, by simp, List.eq_of_mem_replicate h1⟩
      · rcases ih evs' s h2 with ⟨j, hj, hs⟩
        exact ⟨j, by simp [hj], hs⟩
    | none =>
      simp only at h
      exact ⟨i, by simp, List.eq_of_mem_replicate h⟩

/-- Claim C4: whenever `maxmsglen` is unset, non-positive, or greater than
`4093 - scheme`, the effective chunk size is clamped to exactly that
ceiling; consequently no sent chunk ever carries more than `4093 - scheme`
bytes. -/
theorem c4_chunk_size_clamped :
    (∀ (scheme : Nat) (mm : Option Int),
      (mm = none ∨ ∃ v, mm = some v ∧ (v ≤ 0 ∨ v > 4093 - (scheme : Int))) →
      effectiveChunkSize scheme mm = 4093 - (scheme : Int)) ∧
    (∀ (scheme : Nat) (addr : Int) (payload : List Nat) (mm : Option Int)
        (evs : List (Option GMLANResp)) (retry : Int) (s : SentTD),
      s ∈ (TransferData scheme addr payload mm evs retry).2 →
      (s.dataRecord.length : Int) ≤ 4093 - (scheme : Int)) := by
  constructor
  · rintro scheme mm (rfl | ⟨v, rfl, hv⟩)
    · rfl
    · simp only [effectiveChunkSize, if_pos hv]
  · intro scheme addr payload mm evs retry s hs
    by_cases hvalid : addr < 0 ∨ addr ≥ 2 ^ (8 * scheme)
    · simp [TransferData, hvalid] at hs
    · simp only [TransferData, if_neg hvalid] at hs
      rcases transferDataLoop_mem addr payload
          (effectiveChunkSize scheme mm).toNat retry.natAbs
          (chunkStarts payload.length (effectiveChunkSize scheme mm).toNat)
          evs s hs with ⟨i, hi, rfl⟩
      have hm0 : (effectiveChunkSize scheme mm).toNat ≠ 0 := by
        intro h0
        rw [h0] at hi
        simp [chunkStarts] at hi
      have h2 := effectiveChunkSize_le scheme mm
      have hmle : ((effectiveChunkSize scheme mm).toNat : Int)
          ≤ 4093 - (scheme : Int) := by omega
      have h1 : ((tdChunk payload (effectiveChunkSize scheme mm).toNat
          i).length : Int) ≤ ((effectiveChunkSize scheme mm).toNat : Int) := by
        exact_mod_cast tdChunk_length payload
          (effectiveChunkSize scheme mm).toNat i
      calc ((tdPkt addr payload (effectiveChunkSize scheme mm).toNat
            i).dataRecord.length : Int)
          ≤ ((effectiveChunkSize scheme mm).toNat : Int) := h1
        _ ≤ 4093 - (scheme : Int) := hmle

/-- Witness for C4: an unset `maxmsglen` is clamped to `4092` at width 1,
and the first chunk of a concrete transfer carries 2 bytes, below the
ceiling. -/
theorem c4_witness :
    effectiveChunkSize 1 none = 4093 - (1 : Int) ∧
    (((⟨0, [1, 2]⟩ : SentTD).dataRecord.length : Int) ≤ 4093 - ((1 : Nat) : Int)) := by
  constructor
  · exact c4_chunk_size_clamped.1 1 none (Or.inl rfl)
  · exact c4_chunk_size_clamped.2 1 0 [1, 2, 3] (some 2)
      [some (okResp 0x76), some (okResp 0x76)] 0 ⟨0, [1, 2]⟩ (by decide)

/-! ## Claims C5, C6, C7: validation and immediate outcomes -/

/-- Claim C5: for every even security level, `GetSecurityAccess` returns
failure immediately with zero transport messages sent, regardless of the
retry budget, event stream or key function. -/
theorem c5_even_level_rejected (level : Int) (kf : Nat → Nat)
    (evs : List (Option GMLANResp)) (retry : Int)
    (h : level % 2 = 0) :
    GetSecurityAccess level kf evs retry = (false, []) := by
  unfold GetSecurityAccess
  rw [if_pos h]

/-- Witness for C5: level 2 is rejected without any message. -/
theorem c5_witness :
    ((2 : Int) % 2 = 0) ∧ GetSecurityAccess 2 id [] 0 = (false, []) :=
  ⟨by decide, c5_even_level_rejected 2 id [] 0 (by decide)⟩

/-- Claim C6: if the first seed response is valid (service `0x67`) and its
seed is exactly zero, `GetSecurityAccess` returns success immediately after
exactly one sent message, and no key-submission message is ever sent. -/
theorem c6_zero_seed_immediate_success (level : Int) (kf : Nat → Nat)
    (evs : List (Option GMLANResp)) (retry : Int) (resp : GMLANResp)
    (hodd : level % 2 ≠ 0) (hsvc : resp.service = 0x67)
    (hseed : resp.securitySeed = 0) :
    GetSecurityAccess level kf (some resp :: evs) retry
      = (true, [SAMsg.seedReq level]) := by
  unfold GetSecurityAccess
  rw [if_neg hodd]
  have hatt : gsaAttempt level kf (some resp :: evs)
      = (some true, [SAMsg.seedReq level], evs) := by
    unfold gsaAttempt
    simp [pop, hsvc, hseed]
  cases hn : retry.natAbs <;> simp [gsaLoop, hatt]

/-- Witness for C6: a zero seed at level 1 unlocks after the one seed
request. -/
theorem c6_witness :
    ((1 : Int) % 2 ≠ 0) ∧
    GetSecurityAccess 1 id [some (okResp 0x67)] 0 = (true, [SAMsg.seedReq 1]) :=
  ⟨by decide,
   c6_zero_seed_immediate_success 1 id [] 0 (okResp 0x67) (by decide) rfl rfl⟩

/-- Claim C7: `ReadMemoryByAddress` with an address outside
`[0, 256 ^ scheme)` or a length exceeding `4094 - scheme` returns failure
immediately and non-retryably, with zero transport messages sent. -/
theorem c7_rmba_validation (scheme : Nat) (addr len : Int)
    (evs : List (Option GMLANResp)) (retry : Int)
    (h : addr < 0 ∨ addr ≥ (256 : Int) ^ scheme ∨
         len > 4094 - (scheme : Int)) :
    ReadMemoryByAddress scheme addr len evs retry = (none, 0) := by
  have h256 : (256 : Int) ^ scheme = 2 ^ (8 * scheme) := by
    rw [pow_mul]
    norm_num
  unfold ReadMemoryByAddress
  by_cases ha : addr < 0 ∨ addr ≥ 2 ^ (8 * scheme)
  · rw [if_pos ha]
  · rw [if_neg ha]
    have hlen : len > 4094 - (scheme : Int) := by
      rcases h with h1 | h2 | h3
      · exact absurd (Or.inl h1) ha
      · rw [h256] at h2
        exact absurd (Or.inr h2) ha
      · exact h3
    rw [if_pos (Or.inr hlen)]

/-- Witness for C7: at width 1, address 300 is out of range and the read is
rejected with no message sent. -/
theorem c7_witness :
    ((300 : Int) ≥ (256 : Int) ^ 1) ∧
    ReadMemoryByAddress 1 300 5 [] 0 = (none, 0) :=
  ⟨by norm_num,
   c7_rmba_validation 1 300 5 [] 0 (Or.inr (Or.inl (by norm_num)))⟩

/-! ## Claim C8: outcomes of the key step -/

/-- After a valid non-zero seed, a positive key response ends the attempt
successfully with the seed request and one key message sent. -/
theorem gsaAttempt_key_ok (level : Int) (kf : Nat → Nat)
    (r1 r2 : GMLANResp) (evs : List (Option GMLANResp))
    (h1 : r1.service = 0x67) (hs : r1.securitySeed ≠ 0)
    (h2 : r2.service = 0x67) :
    gsaAttempt level kf (some r1 :: some r2 :: evs)
      = (some true, [SAMsg.seedReq level,
          SAMsg.keyMsg (level + 1) (kf r1.securitySeed)], evs) := by
  unfold gsaAttempt
  simp [pop, h1, hs, h2]

/-- After a valid non-zero seed, a timeout or any non-positive response to
the key message makes the attempt a retryable failure. -/
theorem gsaAttempt_key_fail (level : Int) (kf : Nat → Nat)
    (r1 : GMLANResp) (t : Option GMLANResp)
    (evs : List (Option GMLANResp))
    (h1 : r1.service = 0x67) (hs : r1.securitySeed ≠ 0)
    (ht : t = none ∨ ∃ r2, t = some r2 ∧ r2.service ≠ 0x67) :
    gsaAttempt level kf (some r1 :: t :: evs)
      = (none, [SAMsg.seedReq level,
          SAMsg.keyMsg (level + 1) (kf r1.securitySeed)], evs) := by
  unfold gsaAttempt
  rcases ht with rfl | ⟨r2, rfl, hr2⟩
  · simp [pop, h1, hs]
  · simp only [pop, h1, hs]
    simp [hr2]

/-- Every (partial or full) run of the seed/key loop starts by sending a
fresh seed request: a stale seed is never resubmitted. -/
theorem gsaLoop_head (level : Int) (kf : Nat → Nat)
    (evs : List (Option GMLANResp)) (n : Nat) :
    ((gsaLoop level kf evs n).2.1).head? = some (SAMsg.seedReq level) := by
  have hmsgs := gsaAttempt_msgs level kf evs
  rcases hatt : gsaAttempt level kf evs with ⟨ob, msgs, evs'⟩
  rw [hatt] at hmsgs
  have hmsgs' : msgs = [SAMsg.seedReq level] ∨
      ∃ k, msgs = [SAMsg.seedReq level, SAMsg.keyMsg (level + 1) k] := hmsgs
  have hh : msgs.head? = some (SAMsg.seedReq level) := by
    rcases hmsgs' with h | ⟨k, h⟩ <;> simp [h]
  cases n with
  | zero => cases ob <;> simp [gsaLoop, hatt, hh]
  | succ n =>
    cases ob with
    | some b => simp [gsaLoop, hatt, hh]
    | none =>
      simp only [gsaLoop, hatt]
      rcases hmsgs' with h | ⟨k, h⟩ <;> subst h <;> simp

/-- Claim C8: in `GetSecurityAccess`, after a valid non-zero seed, a
positive key response returns success; a negative key response with the
invalid-key return code consumes one retry and loops back to requesting a
fresh seed (the stale seed is never resubmitted, as every loop iteration
begins with a new seed request); and any other negative response or timeout
on the key step likewise consumes one retry and loops. -/
theorem c8_key_step_outcomes :
    (∀ (level : Int) (kf : Nat → Nat) (evs : List (Option GMLANResp))
        (retry : Int) (r1 r2 : GMLANResp),
      level % 2 ≠ 0 → r1.service = 0x67 → r1.securitySeed ≠ 0 →
      r2.service = 0x67 →
      GetSecurityAccess level kf (some r1 :: some r2 :: evs) retry
        = (true, [SAMsg.seedReq level,
            SAMsg.keyMsg (level + 1) (kf r1.securitySeed)])) ∧
    (∀ (level : Int) (kf : Nat → Nat) (evs : List (Option GMLANResp))
        (n : Nat) (r1 r2 : GMLANResp),
      level % 2 ≠ 0 → r1.service = 0x67 → r1.securitySeed ≠ 0 →
      r2.service = 0x7f → r2.returnCode = 0x35 →
      GetSecurityAccess level kf (some r1 :: some r2 :: evs)
          ((n : Int) + 1)
        = ((gsaLoop level kf evs n).1,
           SAMsg.seedReq level
             :: SAMsg.keyMsg (level + 1) (kf r1.securitySeed)
             :: (gsaLoop level kf evs n).2.1)) ∧
    (∀ (level : Int) (kf : Nat → Nat) (evs : List (Option GMLANResp))
        (n : Nat) (r1 : GMLANResp) (t : Option GMLANResp),
      level % 2 ≠ 0 → r1.service = 0x67 → r1.securitySeed ≠ 0 →
      (t = none ∨ ∃ r2, t = some r2 ∧ r2.service ≠ 0x67) →
      GetSecurityAccess level kf (some r1 :: t :: evs) ((n : Int) + 1)
        = ((gsaLoop level kf evs n).1,
           SAMsg.seedReq level
             :: SAMsg.keyMsg (level + 1) (kf r1.securitySeed)
             :: (gsaLoop level kf evs n).2.1)) ∧
    (∀ (level : Int) (kf : Nat → Nat) (evs : List (Option GMLANResp))
        (n : Nat),
      ((gsaLoop level kf evs n).2.1).head? = some (SAMsg.seedReq level)) := by
  refine ⟨?_, ?_, ?_, gsaLoop_head⟩
  · intro level kf evs retry r1 r2 hodd h1 hs h2
    unfold GetSecurityAccess
    rw [if_neg hodd]
    have hatt := gsaAttempt_key_ok level kf r1 r2 evs h1 hs h2
    cases hn : retry.natAbs <;> simp [gsaLoop, hatt]
  · intro level kf evs n r1 r2 hodd h1 hs h2 _h3
    have hr2 : r2.service ≠ 0x67 := by rw [h2]; decide
    have hatt := gsaAttempt_key_fail level kf r1 (some r2) evs h1 hs
      (Or.inr ⟨r2, rfl, hr2⟩)
    have hn : ((n : Int) + 1).natAbs = n + 1 := by omega
    unfold GetSecurityAccess
    rw [if_neg hodd, hn]
    simp [gsaLoop, hatt]
  · intro level kf evs n r1 t hodd h1 hs ht
    have hatt := gsaAttempt_key_fail level kf r1 t evs h1 hs ht
    have hn : ((n : Int) + 1).natAbs = n + 1 := by omega
    unfold GetSecurityAccess
    rw [if_neg hodd, hn]
    simp [gsaLoop, hatt]

/-- A valid seed response carrying the non-zero seed `0x1234`. -/
def seedResp : GMLANResp := ⟨0x67, 0, 0, 0x1234, []⟩

/-- A negative response with the invalid-key return code. -/
def invKeyResp : GMLANResp := ⟨0x7f, 0x35, 0, 0, []⟩

/-- Witness for C8: at level 1, a concrete seed followed by a positive key
reply succeeds; an invalid-key reply or a timeout with one retry left loops
back into a fresh run on the remaining events. -/
theorem c8_witness :
    GetSecurityAccess 1 id [some seedResp, some (okResp 0x67)] 0
      = (true, [SAMsg.seedReq 1, SAMsg.keyMsg 2 0x1234]) ∧
    GetSecurityAccess 1 id [some seedResp, some invKeyResp]
        (((0 : Nat) : Int) + 1)
      = ((gsaLoop 1 id [] 0).1,
         SAMsg.seedReq 1 :: SAMsg.keyMsg 2 0x1234
           :: (gsaLoop 1 id [] 0).2.1) ∧
    GetSecurityAccess 1 id [some seedResp, none] (((0 : Nat) : Int) + 1)
      = ((gsaLoop 1 id [] 0).1,
         SAMsg.seedReq 1 :: SAMsg.keyMsg 2 0x1234
           :: (gsaLoop 1 id [] 0).2.1) := by
  refine ⟨?_, ?_, ?_⟩
  · simpa using c8_key_step_outcomes.1 1 id [] 0 seedResp (okResp 0x67)
      (by decide) rfl (by decide) rfl
  · simpa using c8_key_step_outcomes.2.1 1 id [] 0 seedResp invKeyResp
      (by decide) rfl (by decide) rfl rfl
  · simpa using c8_key_step_outcomes.2.2.1 1 id [] 0 seedResp none
      (by decide) rfl (by decide) (Or.inl rfl)

/-! ## Claims C9, C10: chunk-loop boundary behaviour -/

/-- A zero-length payload produces no chunk offsets. -/
theorem chunkStarts_zero (m : Nat) : chunkStarts 0 m = [] := by
  unfold chunkStarts
  rcases Nat.eq_zero_or_pos m with h | h
  · simp [h]
  · have h0 : (m - 1) / m = 0 := Nat.div_eq_of_lt (by omega)
    simp [h0]

/-- Claim C9: for every valid address and an empty payload, `TransferData`
returns success while sending zero transport messages (the chunk loop body
is never entered). -/
theorem c9_empty_payload_no_messages (scheme : Nat) (addr : Int)
    (mm : Option Int) (evs : List (Option GMLANResp)) (retry : Int)
    (h1 : 0 ≤ addr) (h2 : addr < 2 ^ (8 * scheme)) :
    TransferData scheme addr [] mm evs retry = (true, []) := by
  have hnot : ¬(addr < 0 ∨ addr ≥ 2 ^ (8 * scheme)) := by
    push_neg
    exact ⟨h1, h2⟩
  simp only [TransferData, if_neg hnot, List.length_nil, chunkStarts_zero]
  simp [transferDataLoop]

/-- Witness for C9: address 0 at width 1 with an empty payload succeeds
without sending anything. -/
theorem c9_witness :
    ((0 : Int) ≤ 0 ∧ (0 : Int) < 2 ^ (8 * 1)) ∧
    TransferData 1 0 [] none [] 0 = (true, []) :=
  ⟨⟨le_refl 0, by norm_num⟩,
   c9_empty_payload_no_messages 1 0 none [] 0 (le_refl 0) (by norm_num)⟩

/-- The success-path run of `TransferData`: with a positive `0x76` answer
per chunk, every chunk packet is sent exactly once, in offset order. -/
theorem TransferData_all_ok (scheme : Nat) (addr : Int)
    (payload : List Nat) (mm : Option Int) (r : GMLANResp) (retry : Int)
    (ha0 : 0 ≤ addr) (ha1 : addr < 2 ^ (8 * scheme))
    (hr : r.service = 0x76) :
    TransferData scheme addr payload mm
        (List.replicate (chunkStarts payload.length
          (effectiveChunkSize scheme mm).toNat).length (some r)) retry
      = (true,
         (chunkStarts payload.length
           (effectiveChunkSize scheme mm).toNat).map
           (tdPkt addr payload (effectiveChunkSize scheme mm).toNat)) := by
  have hnot : ¬(addr < 0 ∨ addr ≥ 2 ^ (8 * scheme)) := by
    push_neg
    exact ⟨ha0, ha1⟩
  simp only [TransferData, if_neg hnot]
  rw [transferDataLoop_all_ok addr payload
    (effectiveChunkSize scheme mm).toNat retry.natAbs r hr]

/-- Claim C10: `TransferData` validates only the starting address: whenever
the starting address is in range the call is not rejected up front, every
chunk packet (at starting address `addr + offset`) is sent, and for width 1
with a 10000-byte payload a chunk is sent whose starting address `4092`
lies outside the valid address range `[0, 2 ^ 8)`. -/
theorem c10_later_chunks_unvalidated :
    (∀ (scheme : Nat) (addr : Int) (payload : List Nat) (mm : Option Int)
        (r : GMLANResp) (retry : Int),
      0 ≤ addr → addr < 2 ^ (8 * scheme) → r.service = 0x76 →
      (TransferData scheme addr payload mm
          (List.replicate (chunkStarts payload.length
            (effectiveChunkSize scheme mm).toNat).length (some r))
          retry).1 = true ∧
      ∀ i ∈ chunkStarts payload.length
          (effectiveChunkSize scheme mm).toNat,
        tdPkt addr payload (effectiveChunkSize scheme mm).toNat i
          ∈ (TransferData scheme addr payload mm
              (List.replicate (chunkStarts payload.length
                (effectiveChunkSize scheme mm).toNat).length (some r))
              retry).2) ∧
    (∃ s ∈ (TransferData 1 0 (List.replicate 10000 0) none
        (List.replicate 3 (some (okResp 0x76))) 0).2,
      s.startingAddress ≥ 2 ^ (8 * 1)) := by
  constructor
  · intro scheme addr payload mm r retry ha0 ha1 hr
    rw [TransferData_all_ok scheme addr payload mm r retry ha0 ha1 hr]
    exact ⟨rfl, fun i hi => List.mem_map_of_mem _ hi⟩
  · have hlen : (List.replicate 10000 (0 : Nat)).length = 10000 :=
      List.length_replicate _ _
    have hcs : chunkStarts 10000 (effectiveChunkSize 1 none).toNat
        = [0, 4092, 8184] := by decide
    have h := TransferData_all_ok 1 0 (List.replicate 10000 0) none
      (okResp 0x76) 0 (le_refl 0) (by norm_num) rfl
    rw [hlen, hcs] at h
    refine ⟨tdPkt 0 (List.replicate 10000 0)
      (effectiveChunkSize 1 none).toNat 4092, ?_, ?_⟩
    · rw [show (3 : Nat) = ([0, 4092, 8184] : List Nat).length from rfl, h]
      exact List.mem_map_of_mem _ (by simp)
    · show (0 : Int) + ((4092 : Nat) : Int) ≥ 2 ^ (8 * 1)
      norm_num

/-- Witness for C10: at width 1 with chunk size 2 and payload `[1, 2, 3]`,
the call succeeds and the chunk packet at offset 2 is among the sent
requests. -/
theorem c10_witness :
    (TransferData 1 0 [1, 2, 3] (some 2)
        (List.replicate (chunkStarts 3
          (effectiveChunkSize 1 (some 2)).toNat).length
          (some (okResp 0x76))) 0).1 = true ∧
    tdPkt 0 [1, 2, 3] (effectiveChunkSize 1 (some 2)).toNat 2
      ∈ (TransferData 1 0 [1, 2, 3] (some 2)
          (List.replicate (chunkStarts 3
            (effectiveChunkSize 1 (some 2)).toNat).length
            (some (okResp 0x76))) 0).2 := by
  have h := c10_later_chunks_unvalidated.1 1 0 [1, 2, 3] (some 2)
    (okResp 0x76) 0 (le_refl 0) (by norm_num) rfl
  exact ⟨h.1, h.2 2 (by decide)⟩
